import Mathlib

/-!
# Verification of the gateway-admin configuration store

A shallow embedding of the configuration persistence and change-audit
subsystem of the gateway admin service (`internal/config/mysql_store.go`,
`internal/handler/backend.go`, `internal/handler/route.go`).

Modelling conventions:

* Machine time (`time.Now()` / SQL `CURRENT_TIMESTAMP`) is a `Nat` tick held
  in the store state (`now`); every modelled UPDATE rewrites `updated_at`,
  so the driver's changed-rows count coincides with the matched-rows count
  and `RowsAffected` is modelled as the number of rows matching the WHERE
  clause.
* JSON bodies are modelled as field-mapping payloads: an `Option` field is
  `none` when the key is omitted and `some v` when the key is present with
  value `v`.  Decoding a payload into a Go struct fills omitted fields with
  Go zero values, which `decodeBackend` / `decodeRoute` mirror.  A present
  `enabled` key whose value is not a boolean makes the handler's struct
  decode fail with an invalid-json response before any merge happens, so
  payloads carry `enabled : Option Bool`.
* The serialized `old_value` / `new_value` JSON snapshots are modelled by
  the `Snapshot` sum: serialization is injective, so "the stored snapshot
  deserializes to entity `e`" is rendered as "the stored snapshot is
  `Snapshot.backend e` (resp. `.route e`)".
* `CreateHistory` is the only store call whose storage failure the handlers
  swallow; the boolean `histOk` argument of each handler models whether
  that one insert succeeds.  All other store calls in this pure model can
  fail only with not-found, exactly as the handlers' error mapping expects.
* Handlers return the (possibly mutated) store state together with the
  request outcome, threading the state through the same sequence of store
  calls the Go code performs.
-/

namespace GatewayAdmin

/-- `Backend` mirrors `config.Backend`: a named upstream service endpoint. -/
structure Backend where
  id : Nat
  name : String
  addr : String
  description : String
  enabled : Bool
  createdAt : Nat
  updatedAt : Nat
deriving DecidableEq, Repr

/-- `Route` mirrors `config.Route`: an HTTP method+pattern mapped to a
backend RPC method. -/
structure Route where
  id : Nat
  httpMethod : String
  httpPattern : String
  backendName : String
  backendService : String
  backendMethod : String
  timeoutMS : Int
  description : String
  enabled : Bool
  createdAt : Nat
  updatedAt : Nat
deriving DecidableEq, Repr

/-- A serialized entity snapshot, standing for the JSON bytes stored in
`config_history.old_value` / `new_value`. -/
inductive Snapshot where
  | backend (b : Backend)
  | route (r : Route)
deriving DecidableEq, Repr

/-- `ConfigHistory` mirrors `config.ConfigHistory`: one immutable audit
record of a mutation. -/
structure ConfigHistory where
  id : Nat
  configType : String
  configID : Option Nat
  operation : String
  oldValue : Option Snapshot
  newValue : Option Snapshot
  operator : String
  createdAt : Nat
deriving DecidableEq, Repr

/-- The durable state behind `MySQLStore`: the three tables, the
auto-increment counters, and the current clock tick. -/
structure StoreState where
  backends : List Backend
  routes : List Route
  histories : List ConfigHistory
  nextBackendId : Nat
  nextRouteId : Nat
  nextHistoryId : Nat
  now : Nat
deriving DecidableEq, Repr

/-- Errors produced by the modelled store operations; the SQL layer only
distinguishes the zero-rows-affected case (`backend not found` /
`route not found`). -/
inductive StoreErr where
  | notFound
deriving DecidableEq, Repr

/-- `GetBackendByName`: `SELECT ... FROM backends WHERE name = ? LIMIT 1`;
`sql.ErrNoRows` becomes `none`. -/
def StoreState.getBackendByName (s : StoreState) (name : String) : Option Backend :=
  s.backends.find? (fun row => row.name == name)

/-- `CreateBackend`: `INSERT INTO backends ...`; the id comes from
`LastInsertId` and both timestamps are set to the current tick. -/
def StoreState.createBackend (s : StoreState) (b : Backend) : StoreState × Backend :=
  let created := { b with id := s.nextBackendId, createdAt := s.now, updatedAt := s.now }
  ({ s with backends := s.backends ++ [created], nextBackendId := s.nextBackendId + 1 },
   created)

/-- The row-level effect of the backends UPDATE statement: it writes
`addr`, `description`, `enabled` and refreshes `updated_at`, leaving
`id`, `name`, `created_at` untouched. -/
def applyBackendUpdate (now : Nat) (b row : Backend) : Backend :=
  { row with addr := b.addr, description := b.description,
             enabled := b.enabled, updatedAt := now }

/-- `UpdateBackend`: `UPDATE backends SET addr=?, description=?, enabled=?,
updated_at=CURRENT_TIMESTAMP WHERE name=?`; zero affected rows yields the
`backend not found` error, otherwise the passed struct is given the key
name and the fresh `updated_at` before being returned. -/
def StoreState.updateBackend (s : StoreState) (name : String) (b : Backend) :
    Except StoreErr (StoreState × Backend) :=
  if s.backends.any (fun row => row.name == name) then
    .ok ({ s with backends := s.backends.map (fun row =>
             if row.name == name then applyBackendUpdate s.now b row else row) },
         { b with name := name, updatedAt := s.now })
  else
    .error .notFound

/-- `DeleteBackend`: `UPDATE backends SET enabled=0,
updated_at=CURRENT_TIMESTAMP WHERE name=?`; the row is never removed. -/
def StoreState.deleteBackend (s : StoreState) (name : String) :
    Except StoreErr StoreState :=
  if s.backends.any (fun row => row.name == name) then
    .ok { s with backends := s.backends.map (fun row =>
            if row.name == name then { row with enabled := false, updatedAt := s.now }
            else row) }
  else
    .error .notFound

/-- `GetRouteByID`: `SELECT ... FROM routes WHERE id = ? LIMIT 1`. -/
def StoreState.getRouteByID (s : StoreState) (id : Nat) : Option Route :=
  s.routes.find? (fun row => row.id == id)

/-- `CreateRoute`: `INSERT INTO routes ...` with `LastInsertId`. -/
def StoreState.createRoute (s : StoreState) (r : Route) : StoreState × Route :=
  let created := { r with id := s.nextRouteId, createdAt := s.now, updatedAt := s.now }
  ({ s with routes := s.routes ++ [created], nextRouteId := s.nextRouteId + 1 },
   created)

/-- The row-level effect of the routes UPDATE statement: every column except
`id` and `created_at` is written, `updated_at` is refreshed. -/
def applyRouteUpdate (now : Nat) (r row : Route) : Route :=
  { row with httpMethod := r.httpMethod, httpPattern := r.httpPattern,
             backendName := r.backendName, backendService := r.backendService,
             backendMethod := r.backendMethod, timeoutMS := r.timeoutMS,
             description := r.description, enabled := r.enabled, updatedAt := now }

/-- `UpdateRoute`: the routes UPDATE keyed by id, with the same
zero-rows-affected error as `UpdateBackend`. -/
def StoreState.updateRoute (s : StoreState) (id : Nat) (r : Route) :
    Except StoreErr (StoreState × Route) :=
  if s.routes.any (fun row => row.id == id) then
    .ok ({ s with routes := s.routes.map (fun row =>
             if row.id == id then applyRouteUpdate s.now r row else row) },
         { r with id := id, updatedAt := s.now })
  else
    .error .notFound

/-- `DeleteRoute`: `UPDATE routes SET enabled=0, updated_at=CURRENT_TIMESTAMP
WHERE id=?`. -/
def StoreState.deleteRoute (s : StoreState) (id : Nat) :
    Except StoreErr StoreState :=
  if s.routes.any (fun row => row.id == id) then
    .ok { s with routes := s.routes.map (fun row =>
            if row.id == id then { row with enabled := false, updatedAt := s.now }
            else row) }
  else
    .error .notFound

/-- `CreateHistory`: append-only `INSERT INTO config_history ...`; the id is
the auto-increment counter and `created_at` the column default. -/
def StoreState.createHistory (s : StoreState) (h : ConfigHistory) : StoreState :=
  { s with
    histories := s.histories ++
      [{ h with id := s.nextHistoryId, createdAt := s.now }],
    nextHistoryId := s.nextHistoryId + 1 }

/-- The WHERE clause of `GetHistory`: the two optional filters combine with
logical AND, each applied only when supplied. -/
def historyMatches (configType : Option String) (configID : Option Nat)
    (h : ConfigHistory) : Bool :=
  (match configType with
   | none => true
   | some t => h.configType == t) &&
  (match configID with
   | none => true
   | some i => h.configID == some i)

/-- The retrieval order of `GetHistory`: `ORDER BY created_at DESC`, i.e.
each row's `created_at` dominates every later row's. -/
def histLater (a b : ConfigHistory) : Prop :=
  b.createdAt ≤ a.createdAt

instance : DecidableRel histLater :=
  fun a b => Nat.decLe b.createdAt a.createdAt

instance : IsTotal ConfigHistory histLater :=
  ⟨fun a b => Nat.le_total b.createdAt a.createdAt⟩

instance : IsTrans ConfigHistory histLater :=
  ⟨fun _ _ _ hab hbc => Nat.le_trans hbc hab⟩

/-- `GetHistory`: counts the filtered set with `SELECT COUNT(*)`, then
returns the page `ORDER BY created_at DESC LIMIT ? OFFSET ?`. -/
def StoreState.getHistory (s : StoreState) (configType : Option String)
    (configID : Option Nat) (limit offset : Nat) :
    List ConfigHistory × Nat :=
  let matched := s.histories.filter (historyMatches configType configID)
  (((List.insertionSort histLater matched).drop offset).take limit, matched.length)

/-- A backend JSON body as a field mapping (`map[string]interface{}` view):
`none` means the key is omitted. -/
structure BackendPayload where
  id : Option Nat := none
  name : Option String := none
  addr : Option String := none
  description : Option String := none
  enabled : Option Bool := none
deriving DecidableEq, Repr

/-- `json.Unmarshal` of a backend payload into `config.Backend`: omitted
keys leave the struct's Go zero values in place. -/
def decodeBackend (p : BackendPayload) : Backend :=
  { id := p.id.getD 0, name := p.name.getD "", addr := p.addr.getD "",
    description := p.description.getD "", enabled := p.enabled.getD false,
    createdAt := 0, updatedAt := 0 }

/-- A route JSON body as a field mapping. -/
structure RoutePayload where
  id : Option Nat := none
  httpMethod : Option String := none
  httpPattern : Option String := none
  backendName : Option String := none
  backendService : Option String := none
  backendMethod : Option String := none
  timeoutMS : Option Int := none
  description : Option String := none
  enabled : Option Bool := none
deriving DecidableEq, Repr

/-- `json.Unmarshal` of a route payload into `config.Route`. -/
def decodeRoute (p : RoutePayload) : Route :=
  { id := p.id.getD 0, httpMethod := p.httpMethod.getD "",
    httpPattern := p.httpPattern.getD "", backendName := p.backendName.getD "",
    backendService := p.backendService.getD "",
    backendMethod := p.backendMethod.getD "",
    timeoutMS := p.timeoutMS.getD 0, description := p.description.getD "",
    enabled := p.enabled.getD false, createdAt := 0, updatedAt := 0 }

/-- The request outcomes the handlers surface, by distinct code path:
404 not found, 409 conflict, the 400 `backend not found or disabled`
referential failure, and the 400 required-field failures. -/
inductive ApiErr where
  | notFound
  | conflict
  | invalidReference
  | validationError (msg : String)
deriving DecidableEq, Repr

namespace Handler

/-- `recordHistory` of the handlers: builds the `ConfigHistory` row and calls
`store.CreateHistory`; an insert failure (modelled by `histOk = false`) is
logged and swallowed, leaving the state as it was. -/
def recordHistory (s : StoreState) (histOk : Bool) (configType : String)
    (configID : Option Nat) (operation : String)
    (oldVal newVal : Option Snapshot) (operator : String) : StoreState :=
  if histOk then
    s.createHistory
      { id := 0, configType := configType, configID := configID,
        operation := operation, oldValue := oldVal, newValue := newVal,
        operator := operator, createdAt := 0 }
  else
    s

/-- `BackendHandler.CreateBackend` (`POST /api/v1/backends`): decode the
body, validate `name` and `addr`, reject duplicates, default `enabled` to
true when the request URL query has no `enabled` key (`queryHasEnabled`
models `r.URL.Query().Has` on the query string, not the body), insert, and
record a CREATE history row. -/
def CreateBackend (s : StoreState) (p : BackendPayload) (queryHasEnabled : Bool)
    (operator : String) (histOk : Bool) :
    StoreState × Except ApiErr Backend :=
  let backend := decodeBackend p
  if backend.name = "" then
    (s, .error (.validationError "name is required"))
  else if backend.addr = "" then
    (s, .error (.validationError "addr is required"))
  else
    match s.getBackendByName backend.name with
    | some _ => (s, .error .conflict)
    | none =>
      let backend := if queryHasEnabled then backend else { backend with enabled := true }
      let (s1, created) := s.createBackend backend
      let s2 := recordHistory s1 histOk "backend" (some created.id) "CREATE"
        none (some (.backend created)) operator
      (s2, .ok created)

/-- `BackendHandler.UpdateBackend` (`PUT /api/v1/backends/{name}`): fetch the
existing record, decode the body to a map and then to a struct, preserve the
old `enabled` exactly when the body omits the key, validate `addr`, force
the identity fields from the existing record, run the store update, and
record an UPDATE history row with the pre- and post-update entities. -/
def UpdateBackend (s : StoreState) (name : String) (p : BackendPayload)
    (operator : String) (histOk : Bool) :
    StoreState × Except ApiErr Backend :=
  match s.getBackendByName name with
  | none => (s, .error .notFound)
  | some oldBackend =>
    let backend := decodeBackend p
    let backend := { backend with enabled := p.enabled.getD oldBackend.enabled }
    if backend.addr = "" then
      (s, .error (.validationError "addr is required"))
    else
      let backend := { backend with id := oldBackend.id, name := name }
      match s.updateBackend name backend with
      | .error _ => (s, .error .notFound)
      | .ok (s1, updated) =>
        let s2 := recordHistory s1 histOk "backend" (some updated.id) "UPDATE"
          (some (.backend oldBackend)) (some (.backend updated)) operator
        (s2, .ok updated)

/-- `BackendHandler.DeleteBackend` (`DELETE /api/v1/backends/{name}`): fetch
the existing record, soft-delete it, then overwrite the fetched record's
`enabled` with false and record a DELETE history row whose old snapshot is
that overwritten record. -/
def DeleteBackend (s : StoreState) (name : String) (operator : String)
    (histOk : Bool) : StoreState × Except ApiErr Unit :=
  match s.getBackendByName name with
  | none => (s, .error .notFound)
  | some oldBackend =>
    match s.deleteBackend name with
    | .error _ => (s, .error .notFound)
    | .ok s1 =>
      let oldBackend := { oldBackend with enabled := false }
      let s2 := recordHistory s1 histOk "backend" (some oldBackend.id) "DELETE"
        (some (.backend oldBackend)) none operator
      (s2, .ok ())

/-- The combined `backend == nil || !backend.Enabled` referential test of the
route handlers. -/
def backendMissingOrDisabled (s : StoreState) (name : String) : Bool :=
  match s.getBackendByName name with
  | none => true
  | some b => !b.enabled

/-- `RouteHandler.CreateRoute` (`POST /api/v1/routes`): decode the body,
validate the five required fields, require the referenced backend to exist
and be enabled, default a non-positive timeout to 5000, default `enabled` to
true when the URL query has no `enabled` key, insert, and record a CREATE
history row. -/
def CreateRoute (s : StoreState) (p : RoutePayload) (queryHasEnabled : Bool)
    (operator : String) (histOk : Bool) :
    StoreState × Except ApiErr Route :=
  let route := decodeRoute p
  if route.httpMethod = "" then
    (s, .error (.validationError "http_method is required"))
  else if route.httpPattern = "" then
    (s, .error (.validationError "http_pattern is required"))
  else if route.backendName = "" then
    (s, .error (.validationError "backend_name is required"))
  else if route.backendService = "" then
    (s, .error (.validationError "backend_service is required"))
  else if route.backendMethod = "" then
    (s, .error (.validationError "backend_method is required"))
  else if backendMissingOrDisabled s route.backendName then
    (s, .error .invalidReference)
  else
    let route := if route.timeoutMS ≤ 0 then { route with timeoutMS := 5000 } else route
    let route := if queryHasEnabled then route else { route with enabled := true }
    let (s1, created) := s.createRoute route
    let s2 := recordHistory s1 histOk "route" (some created.id) "CREATE"
      none (some (.route created)) operator
    (s2, .ok created)

/-- The tail of `RouteHandler.UpdateRoute` after the referential check:
force the id from the URL, run the store update, and record an UPDATE
history row with the pre- and post-update routes. -/
def updateRouteCommit (s : StoreState) (id : Nat) (oldRoute route : Route)
    (operator : String) (histOk : Bool) : StoreState × Except ApiErr Route :=
  let route := { route with id := id }
  match s.updateRoute id route with
  | .error _ => (s, .error .notFound)
  | .ok (s1, updated) =>
    let s2 := recordHistory s1 histOk "route" (some updated.id) "UPDATE"
      (some (.route oldRoute)) (some (.route updated)) operator
    (s2, .ok updated)

/-- `RouteHandler.UpdateRoute` (`PUT /api/v1/routes/{id}`): fetch the
existing route, decode the body with the same presence-aware `enabled`
merge as the backend update, validate the five required fields against the
merged result, re-run the referential check only when the merged
`backend_name` differs from the existing one, then commit. -/
def UpdateRoute (s : StoreState) (id : Nat) (p : RoutePayload)
    (operator : String) (histOk : Bool) :
    StoreState × Except ApiErr Route :=
  match s.getRouteByID id with
  | none => (s, .error .notFound)
  | some oldRoute =>
    let route := decodeRoute p
    let route := { route with enabled := p.enabled.getD oldRoute.enabled }
    if route.httpMethod = "" ∨ route.httpPattern = "" ∨ route.backendName = "" ∨
        route.backendService = "" ∨ route.backendMethod = "" then
      (s, .error (.validationError "required fields cannot be empty"))
    else if route.backendName = oldRoute.backendName then
      updateRouteCommit s id oldRoute route operator histOk
    else if backendMissingOrDisabled s route.backendName then
      (s, .error .invalidReference)
    else
      updateRouteCommit s id oldRoute route operator histOk

/-- `RouteHandler.DeleteRoute` (`DELETE /api/v1/routes/{id}`): fetch the
existing route, soft-delete it, then overwrite the fetched route's
`enabled` with false and record a DELETE history row. -/
def DeleteRoute (s : StoreState) (id : Nat) (operator : String)
    (histOk : Bool) : StoreState × Except ApiErr Unit :=
  match s.getRouteByID id with
  | none => (s, .error .notFound)
  | some oldRoute =>
    match s.deleteRoute id with
    | .error _ => (s, .error .notFound)
    | .ok s1 =>
      let oldRoute := { oldRoute with enabled := false }
      let s2 := recordHistory s1 histOk "route" (some oldRoute.id) "DELETE"
        (some (.route oldRoute)) none operator
      (s2, .ok ())

/-- The `config_type` admissibility test of `HistoryHandler.ListHistory`:
an absent parameter is fine, a supplied one must be exactly `backend` or
`route`. -/
def validConfigType : Option String → Bool
  | none => true
  | some t => t == "backend" || t == "route"

/-- The effective page size of `ListHistory`: a supplied limit is honored
only when it parses and lies in 1..100, otherwise the default 50 is kept. -/
def effectiveLimit : Option Int → Int
  | none => 50
  | some n => if 0 < n ∧ n ≤ 100 then n else 50

/-- The effective offset of `ListHistory`: a supplied offset is honored only
when it parses and is non-negative, otherwise the default 0 is kept. -/
def effectiveOffset : Option Int → Int
  | none => 0
  | some n => if 0 ≤ n then n else 0

/-- The page envelope `ListHistory` encodes: items, total matching count,
and the echoed effective limit and offset. -/
structure HistoryPage where
  items : List ConfigHistory
  total : Nat
  limit : Int
  offset : Int
deriving DecidableEq, Repr

/-- `HistoryHandler.ListHistory` (`GET /api/v1/history`): reject an invalid
`config_type` before touching the store, sanitize limit and offset to their
defaults, query the store, and return the page envelope.  The `config_id`
parameter is modelled after its numeric parse. -/
def ListHistory (s : StoreState) (configTypeParam : Option String)
    (configIDParam : Option Nat) (limitParam offsetParam : Option Int) :
    Except ApiErr HistoryPage :=
  if validConfigType configTypeParam then
    let limit := effectiveLimit limitParam
    let offset := effectiveOffset offsetParam
    let res := s.getHistory configTypeParam configIDParam limit.toNat offset.toNat
    .ok { items := res.1, total := res.2, limit := limit, offset := offset }
  else
    .error (.validationError "invalid config_type")

end Handler

/-- A sample backend used to instantiate the theorems on concrete data. -/
def accountBackend : Backend :=
  { id := 1, name := "account", addr := "127.0.0.1:50051",
    description := "Account service", enabled := true,
    createdAt := 10, updatedAt := 10 }

/-- A sample route referencing `accountBackend`. -/
def loginRoute : Route :=
  { id := 1, httpMethod := "POST", httpPattern := "/v1/user/login",
    backendName := "account", backendService := "user.v1.UserService",
    backendMethod := "Login", timeoutMS := 5000, description := "",
    enabled := true, createdAt := 10, updatedAt := 10 }

/-- A sample store holding one backend and one route. -/
def sampleState : StoreState :=
  { backends := [accountBackend], routes := [loginRoute], histories := [],
    nextBackendId := 2, nextRouteId := 2, nextHistoryId := 1, now := 20 }

/-- An empty store. -/
def emptyState : StoreState :=
  { backends := [], routes := [], histories := [],
    nextBackendId := 1, nextRouteId := 1, nextHistoryId := 1, now := 0 }

/-- The payload `{"addr": "127.0.0.1:9999"}`: a partial backend update that
mentions neither `description` nor `enabled`. -/
def addrOnlyPayload : BackendPayload :=
  { addr := some "127.0.0.1:9999" }

/-- The entity the handler returns for `addrOnlyPayload` applied to
`accountBackend`. -/
def mergedSampleBackend : Backend :=
  { id := 1, name := "account", addr := "127.0.0.1:9999", description := "",
    enabled := true, createdAt := 0, updatedAt := 20 }

/-- A route update payload that repeats `loginRoute`'s required fields and
omits `timeout_ms`. -/
def sameNameRoutePayload : RoutePayload :=
  { httpMethod := some "POST", httpPattern := some "/v1/user/login",
    backendName := some "account", backendService := some "user.v1.UserService",
    backendMethod := some "Login" }

/-- The route the update handler returns for `sameNameRoutePayload` applied
to `loginRoute`. -/
def mergedSampleRoute : Route :=
  { id := 1, httpMethod := "POST", httpPattern := "/v1/user/login",
    backendName := "account", backendService := "user.v1.UserService",
    backendMethod := "Login", timeoutMS := 0, description := "",
    enabled := true, createdAt := 0, updatedAt := 20 }

/-- A route creation payload omitting `timeout_ms` and `enabled`. -/
def signupRoutePayload : RoutePayload :=
  { httpMethod := some "POST", httpPattern := some "/v1/user/signup",
    backendName := some "account", backendService := some "user.v1.UserService",
    backendMethod := some "Signup" }

/-- The route created for `signupRoutePayload` against `sampleState`. -/
def createdSampleRoute : Route :=
  { id := 2, httpMethod := "POST", httpPattern := "/v1/user/signup",
    backendName := "account", backendService := "user.v1.UserService",
    backendMethod := "Signup", timeoutMS := 5000, description := "",
    enabled := true, createdAt := 20, updatedAt := 20 }

/-- Three sample audit rows with distinct creation ticks and filters. -/
def sampleHistA : ConfigHistory :=
  { id := 1, configType := "backend", configID := some 7, operation := "CREATE",
    oldValue := none, newValue := some (.backend accountBackend),
    operator := "admin", createdAt := 5 }

/-- Second sample audit row, for the other entity type. -/
def sampleHistB : ConfigHistory :=
  { id := 2, configType := "route", configID := some 1, operation := "CREATE",
    oldValue := none, newValue := some (.route loginRoute),
    operator := "admin", createdAt := 8 }

/-- Third sample audit row, newest, matching `config_type=backend` and
`config_id=7`. -/
def sampleHistC : ConfigHistory :=
  { id := 3, configType := "backend", configID := some 7, operation := "DELETE",
    oldValue := some (.backend accountBackend), newValue := none,
    operator := "admin", createdAt := 9 }

/-- A store whose history table holds the three sample audit rows. -/
def histState : StoreState :=
  { backends := [], routes := [], histories := [sampleHistA, sampleHistB, sampleHistC],
    nextBackendId := 1, nextRouteId := 1, nextHistoryId := 4, now := 30 }

/-- The caller-visible outcome of a handler call: the entity tables and the
response, leaving out the audit table. -/
def entityView {α : Type} (x : StoreState × Except ApiErr α) :
    List Backend × List Route × Except ApiErr α :=
  (x.1.backends, x.1.routes, x.2)

/-- A route creation payload naming a backend that does not exist. -/
def missingBackendRoutePayload : RoutePayload :=
  { httpMethod := some "POST", httpPattern := some "/v1/pay",
    backendName := some "payments", backendService := some "pay.v1.PayService",
    backendMethod := some "Charge" }

/-- The store produced by soft-deleting `account` in `sampleState` with a
successful history insert. -/
def deletedSampleState : StoreState :=
  { backends := [{ accountBackend with enabled := false, updatedAt := 20 }],
    routes := [loginRoute],
    histories := [{ id := 1, configType := "backend", configID := some 1,
                    operation := "DELETE",
                    oldValue := some (.backend { accountBackend with enabled := false }),
                    newValue := none, operator := "admin", createdAt := 20 }],
    nextBackendId := 2, nextRouteId := 2, nextHistoryId := 2, now := 20 }

/-- Recording history never touches the backends table. -/
theorem recordHistory_backends (s : StoreState) (hk : Bool) (ct : String)
    (cid : Option Nat) (oper : String) (ov nv : Option Snapshot) (who : String) :
    (Handler.recordHistory s hk ct cid oper ov nv who).backends = s.backends := by
  cases hk <;> rfl

/-- Recording history never touches the routes table. -/
theorem recordHistory_routes (s : StoreState) (hk : Bool) (ct : String)
    (cid : Option Nat) (oper : String) (ov nv : Option Snapshot) (who : String) :
    (Handler.recordHistory s hk ct cid oper ov nv who).routes = s.routes := by
  cases hk <;> rfl

/-- A successful history record appends exactly one row, with the store's
auto-increment id and clock tick. -/
theorem recordHistory_true_histories (s : StoreState) (ct : String)
    (cid : Option Nat) (oper : String) (ov nv : Option Snapshot) (who : String) :
    (Handler.recordHistory s true ct cid oper ov nv who).histories =
      s.histories ++
        [{ id := s.nextHistoryId, configType := ct, configID := cid,
           operation := oper, oldValue := ov, newValue := nv,
           operator := who, createdAt := s.now }] := by
  rfl

/-- Updating the rows matched by a key-preserving rewrite moves `find?`
along the rewrite. -/
theorem find?_map_if {α : Type} (p : α → Bool) (g : α → α)
    (hg : ∀ x, p (g x) = p x) (l : List α) (b : α) (h : l.find? p = some b) :
    (l.map (fun x => if p x then g x else x)).find? p = some (g b) := by
  induction l with
  | nil => simp [List.find?] at h
  | cons x xs ih =>
    simp only [List.find?, List.map] at h ⊢
    cases hx : p x with
    | true =>
      rw [hx] at h
      simp only [Option.some.injEq] at h
      subst h
      simp [hx, hg]
    | false =>
      rw [hx] at h
      simp [hx, hg, ih h]

/-- A row found by `find?` witnesses `any`. -/
theorem any_of_find? {α : Type} (p : α → Bool) (l : List α) (b : α)
    (h : l.find? p = some b) : l.any p = true :=
  List.any_eq_true.mpr ⟨b, List.mem_of_find?_eq_some h, List.find?_some h⟩

/-- C7: the claim says the enabled default on creation is keyed off the
request payload, but the code keys it off the URL query string: a body that
explicitly sets `enabled: false` (with no `enabled` query parameter) still
creates an enabled backend, and a body omitting `enabled` creates a
disabled backend as soon as the URL query carries an `enabled` key. -/
theorem C7_create_enabled_keyed_on_query :
    (Handler.CreateBackend emptyState
        { name := some "account", addr := some "127.0.0.1:50051", enabled := some false }
        false "admin" true).2
      = Except.ok { id := 1, name := "account", addr := "127.0.0.1:50051",
                    description := "", enabled := true, createdAt := 0, updatedAt := 0 } ∧
    (Handler.CreateBackend emptyState
        { name := some "account", addr := some "127.0.0.1:50051" }
        true "admin" true).2
      = Except.ok { id := 1, name := "account", addr := "127.0.0.1:50051",
                    description := "", enabled := false, createdAt := 0, updatedAt := 0 } :=
  ⟨rfl, rfl⟩

/-- C2 counterexample: a backend update whose payload omits `description`
does not preserve the existing description — the merged entity and the
stored row both end up with an empty description. -/
theorem C2_counterexample :
    (Handler.UpdateBackend sampleState "account" addrOnlyPayload "admin" true).2
      = Except.ok mergedSampleBackend ∧
    (Handler.UpdateBackend sampleState "account" addrOnlyPayload "admin" true).1.getBackendByName "account"
      = some { accountBackend with addr := "127.0.0.1:9999", description := "", updatedAt := 20 } ∧
    accountBackend.description = "Account service" ∧
    mergedSampleBackend.description ≠ accountBackend.description :=
  ⟨rfl, rfl, rfl, by decide⟩

/-- C5 counterexample: deleting the enabled backend `account` records a
DELETE history row whose old snapshot has `enabled = false`, so the
snapshot is not the pre-delete entity. -/
theorem C5_counterexample :
    accountBackend.enabled = true ∧
    (Handler.DeleteBackend sampleState "account" "admin" true).1.histories
      = [{ id := 1, configType := "backend", configID := some 1,
           operation := "DELETE",
           oldValue := some (Snapshot.backend { accountBackend with enabled := false }),
           newValue := none, operator := "admin", createdAt := 20 }] ∧
    some (Snapshot.backend { accountBackend with enabled := false })
      ≠ some (Snapshot.backend accountBackend) :=
  ⟨rfl, rfl, by decide⟩

/-- C8 counterexample: a route update whose payload omits `timeout_ms`
persists `timeout_ms = 0`, not the documented default 5000. -/
theorem C8_counterexample :
    (Handler.UpdateRoute sampleState 1 sameNameRoutePayload "admin" true).2
      = Except.ok mergedSampleRoute ∧
    (Handler.UpdateRoute sampleState 1 sameNameRoutePayload "admin" true).1.getRouteByID 1
      = some { loginRoute with timeoutMS := 0, description := "", updatedAt := 20 } ∧
    mergedSampleRoute.timeoutMS = 0 ∧ (0 : Int) ≠ 5000 :=
  ⟨rfl, rfl, rfl, by decide⟩

/-- A successful store backend update returns the passed struct with the key
name and refreshed tick, and rewrites exactly the matching rows. -/
theorem updateBackend_eq_ok {s : StoreState} {name : String} {b : Backend}
    {s' : StoreState} {b' : Backend}
    (h : s.updateBackend name b = .ok (s', b')) :
    b' = { b with name := name, updatedAt := s.now } ∧
    s' = { s with backends := s.backends.map (fun row =>
             if row.name == name then applyBackendUpdate s.now b row else row) } := by
  unfold StoreState.updateBackend at h
  split at h
  · simp only [Except.ok.injEq, Prod.mk.injEq] at h
    exact ⟨h.2.symm, h.1.symm⟩
  · simp at h

/-- A successful store route update returns the passed struct with the key
id and refreshed tick, and rewrites exactly the matching rows. -/
theorem updateRoute_eq_ok {s : StoreState} {id : Nat} {r : Route}
    {s' : StoreState} {r' : Route}
    (h : s.updateRoute id r = .ok (s', r')) :
    r' = { r with id := id, updatedAt := s.now } ∧
    s' = { s with routes := s.routes.map (fun row =>
             if row.id == id then applyRouteUpdate s.now r row else row) } := by
  unfold StoreState.updateRoute at h
  split at h
  · simp only [Except.ok.injEq, Prod.mk.injEq] at h
    exact ⟨h.2.symm, h.1.symm⟩
  · simp at h

/-- A successful soft delete rewrites exactly the matching backend rows. -/
theorem deleteBackend_eq_ok {s : StoreState} {name : String} {s' : StoreState}
    (h : s.deleteBackend name = .ok s') :
    s' = { s with backends := s.backends.map (fun row =>
             if row.name == name then { row with enabled := false, updatedAt := s.now }
             else row) } := by
  unfold StoreState.deleteBackend at h
  split at h
  · simp only [Except.ok.injEq] at h
    exact h.symm
  · simp at h

/-- A successful soft delete rewrites exactly the matching route rows. -/
theorem deleteRoute_eq_ok {s : StoreState} {id : Nat} {s' : StoreState}
    (h : s.deleteRoute id = .ok s') :
    s' = { s with routes := s.routes.map (fun row =>
             if row.id == id then { row with enabled := false, updatedAt := s.now }
             else row) } := by
  unfold StoreState.deleteRoute at h
  split at h
  · simp only [Except.ok.injEq] at h
    exact h.symm
  · simp at h

/-- A route returned by a successful update commit is the merged route with
the URL id and refreshed tick. -/
theorem updateRouteCommit_ok {s : StoreState} {id : Nat} {oldR r : Route}
    {operator : String} {hk : Bool} {updated : Route}
    (h : (Handler.updateRouteCommit s id oldR r operator hk).2 = Except.ok updated) :
    updated = { r with id := id, updatedAt := s.now } := by
  unfold Handler.updateRouteCommit at h
  dsimp only at h
  split at h
  · simp at h
  · rename_i s1 u heq
    dsimp only at h
    obtain ⟨hu, -⟩ := updateRoute_eq_ok heq
    subst hu
    cases h
    rfl

/-- C1: on Backend and Route update the merged entity's enabled flag is the
payload's value when the `enabled` key is present (including explicitly
false) and the existing record's value when the key is omitted. -/
theorem C1_update_enabled_merge :
    (∀ (s : StoreState) (name operator : String) (p : BackendPayload) (hk : Bool)
       (oldB updated : Backend),
       s.getBackendByName name = some oldB →
       (Handler.UpdateBackend s name p operator hk).2 = Except.ok updated →
       updated.enabled = p.enabled.getD oldB.enabled) ∧
    (∀ (s : StoreState) (id : Nat) (operator : String) (p : RoutePayload) (hk : Bool)
       (oldR updated : Route),
       s.getRouteByID id = some oldR →
       (Handler.UpdateRoute s id p operator hk).2 = Except.ok updated →
       updated.enabled = p.enabled.getD oldR.enabled) := by
  constructor
  · intro s name operator p hk oldB updated hold hres
    unfold Handler.UpdateBackend at hres
    rw [hold] at hres
    dsimp only at hres
    split at hres
    · simp at hres
    · split at hres
      · simp at hres
      · rename_i s1 u heq
        dsimp only at hres
        obtain ⟨hu, -⟩ := updateBackend_eq_ok heq
        subst hu
        cases hres
        rfl
  · intro s id operator p hk oldR updated hold hres
    unfold Handler.UpdateRoute at hres
    rw [hold] at hres
    dsimp only at hres
    split at hres
    · simp at hres
    · split at hres
      · cases updateRouteCommit_ok hres
        rfl
      · split at hres
        · simp at hres
        · cases updateRouteCommit_ok hres
          rfl

/-- C1 witness: updating `account` with a payload that omits `enabled`
keeps the stored enabled value. -/
theorem C1_witness :
    sampleState.getBackendByName "account" = some accountBackend ∧
    (Handler.UpdateBackend sampleState "account" addrOnlyPayload "admin" true).2
      = Except.ok mergedSampleBackend ∧
    mergedSampleBackend.enabled = addrOnlyPayload.enabled.getD accountBackend.enabled :=
  ⟨by decide, rfl,
    C1_update_enabled_merge.1 sampleState "account" "admin" addrOnlyPayload true
      accountBackend mergedSampleBackend (by decide) rfl⟩

/-- C2 (amended): on Backend update the identity fields id and name are
always taken from the existing record, and fields present in the payload
overwrite the existing values; but a non-identity field omitted from the
payload is not preserved — it decodes to its Go zero value, so an omitted
`description` is cleared to the empty string, and an omitted `addr` fails
required-field validation rather than falling back to the stored value. -/
theorem C2_update_field_semantics :
    (∀ (s : StoreState) (name operator : String) (p : BackendPayload) (hk : Bool)
       (oldB updated : Backend),
       s.getBackendByName name = some oldB →
       (Handler.UpdateBackend s name p operator hk).2 = Except.ok updated →
       updated.addr = p.addr.getD "" ∧
       updated.description = p.description.getD "" ∧
       updated.id = oldB.id ∧ updated.name = oldB.name ∧ oldB.name = name) ∧
    (∀ (s : StoreState) (name operator : String) (p : BackendPayload) (hk : Bool)
       (oldB : Backend),
       s.getBackendByName name = some oldB →
       p.addr = none →
       (Handler.UpdateBackend s name p operator hk).2
         = Except.error (ApiErr.validationError "addr is required")) := by
  constructor
  · intro s name operator p hk oldB updated hold hres
    have hold2 : s.backends.find? (fun row => row.name == name) = some oldB := hold
    have hbeq := List.find?_some hold2
    have hname : oldB.name = name := eq_of_beq hbeq
    unfold Handler.UpdateBackend at hres
    rw [hold] at hres
    dsimp only at hres
    split at hres
    · simp at hres
    · split at hres
      · simp at hres
      · rename_i s1 u heq
        dsimp only at hres
        obtain ⟨hu, -⟩ := updateBackend_eq_ok heq
        subst hu
        cases hres
        exact ⟨rfl, rfl, rfl, hname.symm, hname⟩
  · intro s name operator p hk oldB hold haddr
    simp [Handler.UpdateBackend, hold, decodeBackend, haddr]

/-- C2 witness: the concrete update of `account` by a payload carrying only
`addr`. -/
theorem C2_witness :
    sampleState.getBackendByName "account" = some accountBackend ∧
    (Handler.UpdateBackend sampleState "account" addrOnlyPayload "admin" true).2
      = Except.ok mergedSampleBackend ∧
    (mergedSampleBackend.addr = addrOnlyPayload.addr.getD "" ∧
     mergedSampleBackend.description = addrOnlyPayload.description.getD "" ∧
     mergedSampleBackend.id = accountBackend.id ∧
     mergedSampleBackend.name = accountBackend.name ∧
     accountBackend.name = "account") :=
  ⟨by decide, rfl,
    C2_update_field_semantics.1 sampleState "account" "admin" addrOnlyPayload true
      accountBackend mergedSampleBackend (by decide) rfl⟩

/-- A delete on a backend the lookup found always takes the success path:
the row set is rewritten in place and a DELETE history row is recorded with
the fetched record's enabled flag overwritten to false. -/
theorem deleteBackend_handler_ok {s : StoreState} {name : String}
    {operator : String} {hk : Bool} {b : Backend}
    (hold : s.getBackendByName name = some b) :
    Handler.DeleteBackend s name operator hk
      = (Handler.recordHistory
           { s with backends := s.backends.map (fun row =>
               if row.name == name then { row with enabled := false, updatedAt := s.now }
               else row) }
           hk "backend" (some b.id) "DELETE"
           (some (Snapshot.backend { b with enabled := false })) none operator,
         Except.ok ()) := by
  have hold2 : s.backends.find? (fun row => row.name == name) = some b := hold
  unfold Handler.DeleteBackend
  rw [hold]
  dsimp only
  unfold StoreState.deleteBackend
  rw [if_pos (any_of_find? _ _ _ hold2)]

/-- A delete on a route the lookup found always takes the success path. -/
theorem deleteRoute_handler_ok {s : StoreState} {id : Nat}
    {operator : String} {hk : Bool} {r : Route}
    (hold : s.getRouteByID id = some r) :
    Handler.DeleteRoute s id operator hk
      = (Handler.recordHistory
           { s with routes := s.routes.map (fun row =>
               if row.id == id then { row with enabled := false, updatedAt := s.now }
               else row) }
           hk "route" (some r.id) "DELETE"
           (some (Snapshot.route { r with enabled := false })) none operator,
         Except.ok ()) := by
  have hold2 : s.routes.find? (fun row => row.id == id) = some r := hold
  unfold Handler.DeleteRoute
  rw [hold]
  dsimp only
  unfold StoreState.deleteRoute
  rw [if_pos (any_of_find? _ _ _ hold2)]

/-- An update commit on a route the lookup found always succeeds, returning
the merged route under the URL id with a refreshed tick. -/
theorem updateRouteCommit_ok_of_any {s : StoreState} {id : Nat} {oldR r : Route}
    {operator : String} {hk : Bool}
    (h : s.routes.any (fun row => row.id == id) = true) :
    (Handler.updateRouteCommit s id oldR r operator hk).2
      = Except.ok { r with id := id, updatedAt := s.now } := by
  unfold Handler.updateRouteCommit
  dsimp only
  unfold StoreState.updateRoute
  rw [if_pos h]

/-- C3: creating a Route whose backend reference is missing or disabled
fails with the referential error and returns the store unchanged, so no
route row and no history row is written; on update the referential check
runs only when the merged backend_name differs from the existing route's,
so an update that keeps backend_name unchanged succeeds in every store,
including stores whose referenced backend is disabled. -/
theorem C3_referential_check :
    (∀ (s : StoreState) (p : RoutePayload) (q : Bool) (operator : String) (hk : Bool),
       (decodeRoute p).httpMethod ≠ "" → (decodeRoute p).httpPattern ≠ "" →
       (decodeRoute p).backendName ≠ "" → (decodeRoute p).backendService ≠ "" →
       (decodeRoute p).backendMethod ≠ "" →
       Handler.backendMissingOrDisabled s (decodeRoute p).backendName = true →
       Handler.CreateRoute s p q operator hk = (s, Except.error ApiErr.invalidReference)) ∧
    (∀ (s : StoreState) (id : Nat) (p : RoutePayload) (operator : String) (hk : Bool)
       (oldR : Route),
       s.getRouteByID id = some oldR →
       (decodeRoute p).httpMethod ≠ "" → (decodeRoute p).httpPattern ≠ "" →
       (decodeRoute p).backendService ≠ "" → (decodeRoute p).backendMethod ≠ "" →
       (decodeRoute p).backendName = oldR.backendName → oldR.backendName ≠ "" →
       ∃ updated, (Handler.UpdateRoute s id p operator hk).2 = Except.ok updated) := by
  constructor
  · intro s p q operator hk h1 h2 h3 h4 h5 hmiss
    unfold Handler.CreateRoute
    dsimp only
    rw [if_neg h1, if_neg h2, if_neg h3, if_neg h4, if_neg h5, if_pos hmiss]
  · intro s id p operator hk oldR hold h1 h2 h4 h5 hbn hnempty
    have hold2 : s.routes.find? (fun row => row.id == id) = some oldR := hold
    have hany : s.routes.any (fun row => row.id == id) = true :=
      any_of_find? _ _ _ hold2
    unfold Handler.UpdateRoute
    rw [hold]
    dsimp only
    rw [if_neg (by push_neg; exact ⟨h1, h2, by rw [hbn]; exact hnempty, h4, h5⟩)]
    rw [if_pos hbn]
    exact ⟨_, updateRouteCommit_ok_of_any hany⟩

/-- C3 witness: creating a route that names the nonexistent backend
`payments` fails referentially and leaves the sample store unchanged. -/
theorem C3_witness :
    ((decodeRoute missingBackendRoutePayload).httpMethod ≠ "" ∧
     (decodeRoute missingBackendRoutePayload).httpPattern ≠ "" ∧
     (decodeRoute missingBackendRoutePayload).backendName ≠ "" ∧
     (decodeRoute missingBackendRoutePayload).backendService ≠ "" ∧
     (decodeRoute missingBackendRoutePayload).backendMethod ≠ "" ∧
     Handler.backendMissingOrDisabled sampleState
       (decodeRoute missingBackendRoutePayload).backendName = true) ∧
    Handler.CreateRoute sampleState missingBackendRoutePayload false "admin" true
      = (sampleState, Except.error ApiErr.invalidReference) :=
  ⟨⟨by decide, by decide, by decide, by decide, by decide, by decide⟩,
    C3_referential_check.1 sampleState missingBackendRoutePayload false "admin" true
      (by decide) (by decide) (by decide) (by decide) (by decide) (by decide)⟩

/-- C4: deleting an existing Backend reports success, keeps the row
(retrievable by name) with enabled set to false, and a second delete of the
already-disabled row succeeds again instead of failing with NotFound. -/
theorem C4_soft_delete_idempotent :
    ∀ (s : StoreState) (name operator : String) (hk : Bool) (b : Backend),
      s.getBackendByName name = some b →
      (Handler.DeleteBackend s name operator hk).2 = Except.ok () ∧
      (Handler.DeleteBackend s name operator hk).1.getBackendByName name
        = some { b with enabled := false, updatedAt := s.now } ∧
      (Handler.DeleteBackend (Handler.DeleteBackend s name operator hk).1
          name operator hk).2 = Except.ok () := by
  intro s name operator hk b hold
  have hold2 : s.backends.find? (fun row => row.name == name) = some b := hold
  have hsurvives : (Handler.DeleteBackend s name operator hk).1.getBackendByName name
      = some { b with enabled := false, updatedAt := s.now } := by
    rw [deleteBackend_handler_ok hold]
    dsimp only
    unfold StoreState.getBackendByName
    rw [recordHistory_backends]
    dsimp only
    exact find?_map_if (fun row => row.name == name)
      (fun row => { row with enabled := false, updatedAt := s.now }) (fun x => rfl)
      s.backends b hold2
  refine ⟨by rw [deleteBackend_handler_ok hold], hsurvives, ?_⟩
  rw [deleteBackend_handler_ok hsurvives]

/-- C4 witness: the concrete soft delete of `account`. -/
theorem C4_witness :
    sampleState.getBackendByName "account" = some accountBackend ∧
    ((Handler.DeleteBackend sampleState "account" "admin" true).2 = Except.ok () ∧
     (Handler.DeleteBackend sampleState "account" "admin" true).1.getBackendByName "account"
       = some { accountBackend with enabled := false, updatedAt := sampleState.now } ∧
     (Handler.DeleteBackend (Handler.DeleteBackend sampleState "account" "admin" true).1
         "account" "admin" true).2 = Except.ok ()) :=
  ⟨by decide,
    C4_soft_delete_idempotent sampleState "account" "admin" true accountBackend (by decide)⟩

/-- A successful route update commit appends exactly one UPDATE history row
carrying the pre-update route as old snapshot and the merged route as new
snapshot. -/
theorem updateRouteCommit_histories {s : StoreState} {id : Nat} {oldR r : Route}
    {operator : String} {s' : StoreState} {updated : Route}
    (h : Handler.updateRouteCommit s id oldR r operator true = (s', Except.ok updated)) :
    s'.histories = s.histories ++
      [{ id := s.nextHistoryId, configType := "route", configID := some updated.id,
         operation := "UPDATE", oldValue := some (Snapshot.route oldR),
         newValue := some (Snapshot.route updated),
         operator := operator, createdAt := s.now }] := by
  unfold Handler.updateRouteCommit at h
  dsimp only at h
  split at h
  · simp at h
  · rename_i s1 u heq
    obtain ⟨hu, hs1⟩ := updateRoute_eq_ok heq
    subst hu hs1
    injection h with hst hval
    injection hval with hval
    subst hst hval
    rw [recordHistory_true_histories]

/-- C5 (amended): with a succeeding history insert, every successful
create/update/delete of a Backend or Route appends exactly one ConfigHistory
row whose operation and config_type match the action and the entity;
old_value is absent for CREATE and new_value is absent for DELETE; for
UPDATE the old snapshot is the pre-update entity and the new snapshot the
post-update entity; for DELETE, however, the recorded old snapshot is the
pre-delete entity with its enabled flag overwritten to false, so the
pre-delete enabled value is not preserved in the audit row. -/
theorem C5_history_rows :
    (∀ (s : StoreState) (p : BackendPayload) (q : Bool) (operator : String)
       (s' : StoreState) (created : Backend),
       Handler.CreateBackend s p q operator true = (s', Except.ok created) →
       s'.histories = s.histories ++
         [{ id := s.nextHistoryId, configType := "backend", configID := some created.id,
            operation := "CREATE", oldValue := none,
            newValue := some (Snapshot.backend created),
            operator := operator, createdAt := s.now }]) ∧
    (∀ (s : StoreState) (name operator : String) (p : BackendPayload)
       (s' : StoreState) (oldB updated : Backend),
       s.getBackendByName name = some oldB →
       Handler.UpdateBackend s name p operator true = (s', Except.ok updated) →
       s'.histories = s.histories ++
         [{ id := s.nextHistoryId, configType := "backend", configID := some updated.id,
            operation := "UPDATE", oldValue := some (Snapshot.backend oldB),
            newValue := some (Snapshot.backend updated),
            operator := operator, createdAt := s.now }]) ∧
    (∀ (s : StoreState) (name operator : String) (s' : StoreState) (oldB : Backend),
       s.getBackendByName name = some oldB →
       Handler.DeleteBackend s name operator true = (s', Except.ok ()) →
       s'.histories = s.histories ++
         [{ id := s.nextHistoryId, configType := "backend", configID := some oldB.id,
            operation := "DELETE",
            oldValue := some (Snapshot.backend { oldB with enabled := false }),
            newValue := none, operator := operator, createdAt := s.now }]) ∧
    (∀ (s : StoreState) (p : RoutePayload) (q : Bool) (operator : String)
       (s' : StoreState) (created : Route),
       Handler.CreateRoute s p q operator true = (s', Except.ok created) →
       s'.histories = s.histories ++
         [{ id := s.nextHistoryId, configType := "route", configID := some created.id,
            operation := "CREATE", oldValue := none,
            newValue := some (Snapshot.route created),
            operator := operator, createdAt := s.now }]) ∧
    (∀ (s : StoreState) (id : Nat) (operator : String) (p : RoutePayload)
       (s' : StoreState) (oldR updated : Route),
       s.getRouteByID id = some oldR →
       Handler.UpdateRoute s id p operator true = (s', Except.ok updated) →
       s'.histories = s.histories ++
         [{ id := s.nextHistoryId, configType := "route", configID := some updated.id,
            operation := "UPDATE", oldValue := some (Snapshot.route oldR),
            newValue := some (Snapshot.route updated),
            operator := operator, createdAt := s.now }]) ∧
    (∀ (s : StoreState) (id : Nat) (operator : String) (s' : StoreState) (oldR : Route),
       s.getRouteByID id = some oldR →
       Handler.DeleteRoute s id operator true = (s', Except.ok ()) →
       s'.histories = s.histories ++
         [{ id := s.nextHistoryId, configType := "route", configID := some oldR.id,
            operation := "DELETE",
            oldValue := some (Snapshot.route { oldR with enabled := false }),
            newValue := none, operator := operator, createdAt := s.now }]) := by
  refine ⟨?_, ?_, ?_, ?_, ?_, ?_⟩
  · intro s p q operator s' created hres
    unfold Handler.CreateBackend at hres
    dsimp only [StoreState.createBackend] at hres
    split at hres
    · simp at hres
    split at hres
    · simp at hres
    split at hres
    · simp at hres
    injection hres with hst hval
    injection hval with hval
    subst hst hval
    rw [recordHistory_true_histories]
  · intro s name operator p s' oldB updated hold hres
    unfold Handler.UpdateBackend at hres
    rw [hold] at hres
    dsimp only at hres
    split at hres
    · simp at hres
    split at hres
    · simp at hres
    rename_i s1 u heq
    obtain ⟨hu, hs1⟩ := updateBackend_eq_ok heq
    subst hu hs1
    injection hres with hst hval
    injection hval with hval
    subst hst hval
    rw [recordHistory_true_histories]
  · intro s name operator s' oldB hold hres
    rw [deleteBackend_handler_ok hold] at hres
    injection hres with hst hval
    subst hst
    rw [recordHistory_true_histories]
  · intro s p q operator s' created hres
    unfold Handler.CreateRoute at hres
    dsimp only [StoreState.createRoute] at hres
    split at hres
    · simp at hres
    split at hres
    · simp at hres
    split at hres
    · simp at hres
    split at hres
    · simp at hres
    split at hres
    · simp at hres
    split at hres
    · simp at hres
    injection hres with hst hval
    injection hval with hval
    subst hst hval
    rw [recordHistory_true_histories]
  · intro s id operator p s' oldR updated hold hres
    unfold Handler.UpdateRoute at hres
    rw [hold] at hres
    dsimp only at hres
    split at hres
    · simp at hres
    split at hres
    · exact updateRouteCommit_histories hres
    split at hres
    · simp at hres
    exact updateRouteCommit_histories hres
  · intro s id operator s' oldR hold hres
    rw [deleteRoute_handler_ok hold] at hres
    injection hres with hst hval
    subst hst
    rw [recordHistory_true_histories]

/-- C5 witness: soft-deleting `account` appends exactly the expected DELETE
history row to the sample store. -/
theorem C5_witness :
    sampleState.getBackendByName "account" = some accountBackend ∧
    Handler.DeleteBackend sampleState "account" "admin" true
      = (deletedSampleState, Except.ok ()) ∧
    deletedSampleState.histories = sampleState.histories ++
      [{ id := sampleState.nextHistoryId, configType := "backend",
         configID := some accountBackend.id, operation := "DELETE",
         oldValue := some (Snapshot.backend { accountBackend with enabled := false }),
         newValue := none, operator := "admin", createdAt := sampleState.now }] :=
  ⟨by decide, rfl,
    C5_history_rows.2.2.1 sampleState "account" "admin" deletedSampleState
      accountBackend (by decide) rfl⟩

/-- C6: whether the audit-history insert succeeds or fails never changes
what the caller sees — for all six mutating handlers the response and the
backend and route tables are identical in both cases, so a history failure
is swallowed and the committed entity state stands. -/
theorem C6_history_failure_nonfatal :
    ∀ (s : StoreState) (name operator : String) (id : Nat)
      (pb : BackendPayload) (pr : RoutePayload) (q : Bool),
      entityView (Handler.CreateBackend s pb q operator false)
        = entityView (Handler.CreateBackend s pb q operator true) ∧
      entityView (Handler.UpdateBackend s name pb operator false)
        = entityView (Handler.UpdateBackend s name pb operator true) ∧
      entityView (Handler.DeleteBackend s name operator false)
        = entityView (Handler.DeleteBackend s name operator true) ∧
      entityView (Handler.CreateRoute s pr q operator false)
        = entityView (Handler.CreateRoute s pr q operator true) ∧
      entityView (Handler.UpdateRoute s id pr operator false)
        = entityView (Handler.UpdateRoute s id pr operator true) ∧
      entityView (Handler.DeleteRoute s id operator false)
        = entityView (Handler.DeleteRoute s id operator true) := by
  intro s name operator id pb pr q
  refine ⟨?_, ?_, ?_, ?_, ?_, ?_⟩
  · unfold Handler.CreateBackend
    dsimp only [StoreState.createBackend]
    repeat' split
    all_goals rfl
  · unfold Handler.UpdateBackend
    dsimp only
    repeat' split
    all_goals rfl
  · unfold Handler.DeleteBackend
    dsimp only
    repeat' split
    all_goals rfl
  · unfold Handler.CreateRoute
    dsimp only [StoreState.createRoute]
    repeat' split
    all_goals rfl
  · unfold Handler.UpdateRoute Handler.updateRouteCommit
    dsimp only
    repeat' split
    all_goals rfl
  · unfold Handler.DeleteRoute
    dsimp only
    repeat' split
    all_goals rfl

/-- C8 (amended): on Route creation an unset or non-positive payload timeout
is replaced by the default 5000; on Route update no defaulting happens at
all — the persisted timeout is exactly the payload's decoded value, which is
0 when the key is omitted. -/
theorem C8_timeout_default :
    (∀ (s : StoreState) (p : RoutePayload) (q : Bool) (operator : String) (hk : Bool)
       (created : Route),
       (Handler.CreateRoute s p q operator hk).2 = Except.ok created →
       created.timeoutMS = if p.timeoutMS.getD 0 ≤ 0 then 5000 else p.timeoutMS.getD 0) ∧
    (∀ (s : StoreState) (id : Nat) (p : RoutePayload) (operator : String) (hk : Bool)
       (updated : Route),
       (Handler.UpdateRoute s id p operator hk).2 = Except.ok updated →
       updated.timeoutMS = p.timeoutMS.getD 0) := by
  constructor
  · intro s p q operator hk created hres
    unfold Handler.CreateRoute at hres
    dsimp only [StoreState.createRoute] at hres
    split at hres
    · simp at hres
    split at hres
    · simp at hres
    split at hres
    · simp at hres
    split at hres
    · simp at hres
    split at hres
    · simp at hres
    split at hres
    · simp at hres
    dsimp only at hres
    cases hres
    dsimp only [decodeRoute]
    split <;> split <;> rfl
  · intro s id p operator hk updated hres
    unfold Handler.UpdateRoute at hres
    dsimp only at hres
    split at hres
    · simp at hres
    split at hres
    · simp at hres
    split at hres
    · cases updateRouteCommit_ok hres
      rfl
    split at hres
    · simp at hres
    cases updateRouteCommit_ok hres
    rfl

/-- C8 witness: creating a route whose payload omits `timeout_ms` yields the
default 5000. -/
theorem C8_witness :
    (Handler.CreateRoute sampleState signupRoutePayload false "admin" true).2
      = Except.ok createdSampleRoute ∧
    createdSampleRoute.timeoutMS
      = if signupRoutePayload.timeoutMS.getD 0 ≤ 0 then 5000
        else signupRoutePayload.timeoutMS.getD 0 :=
  ⟨rfl,
    C8_timeout_default.1 sampleState signupRoutePayload false "admin" true
      createdSampleRoute rfl⟩

/-- C9: the history query's total is the count of all rows matching the
AND-combined optional filters (not the page size), the page is the
limit/offset window of the matching rows sorted newest-first, every
returned row matches both filters, the page never exceeds the limit, and
the returned rows are ordered by creation time descending. -/
theorem C9_getHistory_spec :
    ∀ (s : StoreState) (ct : Option String) (cid : Option Nat) (limit offset : Nat),
      (s.getHistory ct cid limit offset).2
        = (s.histories.filter (historyMatches ct cid)).length ∧
      (s.getHistory ct cid limit offset).1
        = ((List.insertionSort histLater
              (s.histories.filter (historyMatches ct cid))).drop offset).take limit ∧
      (s.getHistory ct cid limit offset).1.length ≤ limit ∧
      (∀ h ∈ (s.getHistory ct cid limit offset).1, historyMatches ct cid h = true) ∧
      List.Pairwise histLater (s.getHistory ct cid limit offset).1 := by
  intro s ct cid limit offset
  refine ⟨rfl, rfl, ?_, ?_, ?_⟩
  · dsimp only [StoreState.getHistory]
    simp [List.length_take]
  · intro h hmem
    dsimp only [StoreState.getHistory] at hmem
    have hsub : (((List.insertionSort histLater
        (s.histories.filter (historyMatches ct cid))).drop offset).take limit).Sublist
        (List.insertionSort histLater (s.histories.filter (historyMatches ct cid))) :=
      (List.take_sublist _ _).trans (List.drop_sublist _ _)
    have h1 : h ∈ List.insertionSort histLater
        (s.histories.filter (historyMatches ct cid)) := hsub.subset hmem
    have h2 : h ∈ s.histories.filter (historyMatches ct cid) :=
      (List.perm_insertionSort _ _).mem_iff.mp h1
    exact (List.mem_filter.mp h2).2
  · dsimp only [StoreState.getHistory]
    exact (List.sorted_insertionSort histLater _).sublist
      ((List.take_sublist _ _).trans (List.drop_sublist _ _))

/-- C9 witness: on the sample history store, a returned row of the filtered
page matches the filters. -/
theorem C9_witness :
    sampleHistC ∈ (histState.getHistory (some "backend") (some 7) 10 0).1 ∧
    historyMatches (some "backend") (some 7) sampleHistC = true :=
  ⟨by decide,
    (C9_getHistory_spec histState (some "backend") (some 7) 10 0).2.2.2.1
      sampleHistC (by decide)⟩

/-- C10: the history listing rejects any supplied config_type other than
exactly `backend` or `route` with a validation error — uniformly in the
store state, i.e. before any query; a supplied limit outside 1..100 is
silently replaced by the default 50 and a negative offset by the default 0,
and with a valid config_type the handler returns the store page computed
from the effective limit and offset. -/
theorem C10_listHistory_param_policy :
    ∀ (s : StoreState) (ct : Option String) (cid : Option Nat) (lp off : Option Int),
      (Handler.validConfigType ct = false →
        Handler.ListHistory s ct cid lp off
          = Except.error (ApiErr.validationError "invalid config_type")) ∧
      (∀ t, ct = some t → t ≠ "backend" → t ≠ "route" →
        Handler.validConfigType ct = false) ∧
      (∀ n, lp = some n → (n ≤ 0 ∨ 100 < n) → Handler.effectiveLimit lp = 50) ∧
      (∀ n, off = some n → n < 0 → Handler.effectiveOffset off = 0) ∧
      (Handler.validConfigType ct = true →
        Handler.ListHistory s ct cid lp off = Except.ok
          { items := (s.getHistory ct cid (Handler.effectiveLimit lp).toNat
                        (Handler.effectiveOffset off).toNat).1,
            total := (s.getHistory ct cid (Handler.effectiveLimit lp).toNat
                        (Handler.effectiveOffset off).toNat).2,
            limit := Handler.effectiveLimit lp,
            offset := Handler.effectiveOffset off }) := by
  intro s ct cid lp off
  refine ⟨?_, ?_, ?_, ?_, ?_⟩
  · intro h
    unfold Handler.ListHistory
    rw [h]
    rfl
  · intro t hct h1 h2
    subst hct
    simp [Handler.validConfigType, h1, h2]
  · intro n hlp hrange
    subst hlp
    unfold Handler.effectiveLimit
    dsimp only
    rw [if_neg]
    omega
  · intro n hoff hneg
    subst hoff
    unfold Handler.effectiveOffset
    dsimp only
    rw [if_neg]
    omega
  · intro h
    unfold Handler.ListHistory
    rw [h]
    rfl

/-- C10 witness: a bogus config_type is rejected regardless of the store,
and out-of-range limit and offset fall back to the defaults. -/
theorem C10_witness :
    Handler.validConfigType (some "bogus") = false ∧
    Handler.ListHistory histState (some "bogus") none (some 500) (some (-3))
      = Except.error (ApiErr.validationError "invalid config_type") ∧
    Handler.effectiveLimit (some 500) = 50 ∧
    Handler.effectiveOffset (some (-3)) = 0 :=
  ⟨by decide,
    (C10_listHistory_param_policy histState (some "bogus") none (some 500) (some (-3))).1
      (by decide),
    (C10_listHistory_param_policy histState (some "bogus") none (some 500) (some (-3))).2.2.1
      500 rfl (Or.inr (by decide)),
    (C10_listHistory_param_policy histState (some "bogus") none (some 500) (some (-3))).2.2.2.1
      (-3) rfl (by decide)⟩

end GatewayAdmin
